import Mathlib

/-!
Verification of the LLM Reasoning Router core against its specification.

The Python sources are shallowly embedded: response and prompt text is
`List Char`, Python `float` is `ℚ` (all arithmetic in the embedded code is
exact decimal arithmetic on small fractions), Python `int` is `ℤ`, and the
`re` patterns of the detector catalogues are compiled to a small token
language (`RTok`) with a backtracking matcher that mirrors Python's
leftmost, first-alternative, greedy/lazy semantics for exactly the
constructs those patterns use.
-/

set_option maxHeartbeats 4000000
set_option maxRecDepth 8000

namespace RouterSpec

/-- Python `\s` / `str.strip` whitespace, ASCII range (the embedded texts are
ASCII apart from a few fixed symbols, which are not whitespace). -/
def pyIsSpace (c : Char) : Bool :=
  c == ' ' || c == '\t' || c == '\n' || c == '\r' || c == '\x0b' || c == '\x0c'

/-- Python `\w`: word character (ASCII range). -/
def isWordChar (c : Char) : Bool :=
  c.isAlphanum || c == '_'

/-- Lowercasing a text, as Python `str.lower()` does on ASCII text. -/
def lowerText (s : List Char) : List Char :=
  s.map Char.toLower

/-- Case-insensitive character comparison (`re.IGNORECASE` on ASCII). -/
def ciEq (a b : Char) : Bool :=
  a.toLower == b.toLower

/-- Case-insensitive prefix test. -/
def ciPrefix : List Char → List Char → Bool
  | [], _ => true
  | _ :: _, [] => false
  | a :: as, b :: bs => ciEq a b && ciPrefix as bs

/-- Drop trailing characters satisfying `p`. -/
def dropTrailing (p : Char → Bool) (s : List Char) : List Char :=
  ((s.reverse).dropWhile p).reverse

/-- Python `str.strip()`. -/
def pyStrip (s : List Char) : List Char :=
  dropTrailing pyIsSpace (s.dropWhile pyIsSpace)

/-- Whether `pat` occurs (case-insensitively) somewhere in `s`:
Python `re.search` of a literal, or the `in` operator on lowered text. -/
def containsSub (pat : List Char) : List Char → Bool
  | [] => ciPrefix pat []
  | c :: rest => ciPrefix pat (c :: rest) || containsSub pat rest

/-- Python `str.split()` (split on whitespace runs, dropping empties),
via an accumulator for the word read so far (in reverse). -/
def pySplitAux : List Char → List Char → List (List Char)
  | [], acc => if acc.isEmpty then [] else [acc.reverse]
  | c :: rest, acc =>
    if pyIsSpace c then
      if acc.isEmpty then pySplitAux rest [] else acc.reverse :: pySplitAux rest []
    else pySplitAux rest (c :: acc)

def pySplitWs (s : List Char) : List (List Char) :=
  pySplitAux s []

/-- Python `int()` on a rational: truncation toward zero. -/
def pyInt (q : ℚ) : ℤ :=
  if 0 ≤ q then ⌊q⌋ else -⌊-q⌋

/-- Python `round(q)` (banker's rounding, exact on rationals; the sources
only ever display the two-decimal results, no claim depends on ties). -/
def roundHalfEven (q : ℚ) : ℤ :=
  if q - ⌊q⌋ < 1/2 then ⌊q⌋
  else if q - ⌊q⌋ > 1/2 then ⌊q⌋ + 1
  else if ⌊q⌋ % 2 = 0 then ⌊q⌋ else ⌊q⌋ + 1

/-- Python `round(q, 2)`. -/
def pyRound2 (q : ℚ) : ℚ :=
  (roundHalfEven (q * 100) : ℚ) / 100

/-! ## A token language for the `re` patterns of the detector catalogues

Each Python pattern is compiled, by hand, to a `List RTok`. The matcher
implements the backtracking search Python performs: alternatives in
order, greedy quantifiers longest-first, lazy shortest-first, with the
continuation retried at every split point. `\b` and multiline `^` need one
character of left context, which is threaded through as `prev`. -/

inductive RTok where
  /-- a literal sequence of characters -/
  | lit (cs : List Char)
  /-- an alternation of literal strings, in priority order; an empty
  candidate encodes an optional alternation `(?:a|b)?` -/
  | alts (cands : List (List Char))
  /-- a single character of a class, `[...]` -/
  | one (cls : Char → Bool)
  /-- `X*?`: lazy star over a character class -/
  | starLazy (cls : Char → Bool)
  /-- `X*`: greedy star over a character class -/
  | starGreedy (cls : Char → Bool)
  /-- `X+`: greedy plus over a character class -/
  | plusGreedy (cls : Char → Bool)
  /-- `X{0,mx}`: greedy bounded repetition over a character class -/
  | bounded (cls : Char → Bool) (mx : Nat)
  /-- `(?!...)`: negative lookahead for a literal -/
  | notFollowedBy (cs : List Char)
  /-- `\b` -/
  | wordB
  /-- `^` under `re.MULTILINE`: start of text or right after a newline -/
  | lineStart
  /-- `(?:...)?` over a whole sub-sequence of tokens, greedy -/
  | opt (sub : List RTok)

/-- Bound on the matcher's call depth for a token list: each call steps to
the tail, or into `opt`'s sub-tokens glued to the tail. The catalogues
never nest `opt` inside `opt`, which this weight assumes. -/
def tokWeight : RTok → Nat
  | .opt sub => 1 + sub.length
  | _ => 1

def patFuel (toks : List RTok) : Nat :=
  1 + (toks.map tokWeight).sum

/-- Length of the run of characters of class `cls` at the head of `s`:
the furthest a quantifier over `cls` can reach. -/
def maxRun (cls : Char → Bool) (s : List Char) : Nat :=
  (s.takeWhile cls).length

/-- The character of left context after consuming `k` characters of `s`. -/
def prevAfter (prev : Option Char) (s : List Char) (k : Nat) : Option Char :=
  if k = 0 then prev else s.get? (k - 1)

/-- `\b` holds between `prev` and the head of `s`. -/
def wordBoundaryAt (prev : Option Char) (s : List Char) : Bool :=
  (match prev with | none => false | some c => isWordChar c)
    != (match s with | [] => false | c :: _ => isWordChar c)

/-- Backtracking matcher: the length of the match of `toks` at the start of
`s` that Python's engine would pick, if any. `fuel` only bounds the call
depth (`patFuel` of the initial token list always suffices). -/
def matchToks : Nat → List RTok → Option Char → List Char → Option Nat
  | 0, _, _, _ => none
  | _ + 1, [], _, _ => some 0
  | fuel + 1, t :: ts, prev, s =>
    match t with
    | .lit cs =>
      if ciPrefix cs s then
        (matchToks fuel ts (prevAfter prev s cs.length) (s.drop cs.length)).map (· + cs.length)
      else none
    | .alts cands =>
      cands.findSome? fun cs =>
        if ciPrefix cs s then
          (matchToks fuel ts (prevAfter prev s cs.length) (s.drop cs.length)).map (· + cs.length)
        else none
    | .one cls =>
      match s with
      | [] => none
      | c :: r => if cls c then (matchToks fuel ts (some c) r).map (· + 1) else none
    | .starLazy cls =>
      (List.range (maxRun cls s + 1)).findSome? fun k =>
        (matchToks fuel ts (prevAfter prev s k) (s.drop k)).map (· + k)
    | .starGreedy cls =>
      ((List.range (maxRun cls s + 1)).reverse).findSome? fun k =>
        (matchToks fuel ts (prevAfter prev s k) (s.drop k)).map (· + k)
    | .plusGreedy cls =>
      ((List.range' 1 (maxRun cls s)).reverse).findSome? fun k =>
        (matchToks fuel ts (prevAfter prev s k) (s.drop k)).map (· + k)
    | .bounded cls mx =>
      ((List.range (min mx (maxRun cls s) + 1)).reverse).findSome? fun k =>
        (matchToks fuel ts (prevAfter prev s k) (s.drop k)).map (· + k)
    | .notFollowedBy cs =>
      if ciPrefix cs s then none else matchToks fuel ts prev s
    | .wordB =>
      if wordBoundaryAt prev s then matchToks fuel ts prev s else none
    | .lineStart =>
      if prev == none || prev == some '\n' then matchToks fuel ts prev s else none
    | .opt sub =>
      match matchToks fuel (sub ++ ts) prev s with
      | some n => some n
      | none => matchToks fuel ts prev s

/-- `re.finditer`: non-overlapping matches, scanning left to right, as
(position, matched text) pairs. The catalogues contain no pattern that
can match the empty string; a zero-length match advances the scan by one
character, like Python. -/
def scanAux (toks : List RTok) : Nat → Nat → Option Char → List Char → List (Nat × List Char)
  | 0, _, _, _ => []
  | _ + 1, _, _, [] => []
  | fuel + 1, pos, prev, c :: rest =>
    match matchToks (patFuel toks) toks prev (c :: rest) with
    | some (n + 1) =>
      (pos, (c :: rest).take (n + 1)) ::
        scanAux toks fuel (pos + n + 1) ((c :: rest).get? n) ((c :: rest).drop (n + 1))
    | _ => scanAux toks fuel (pos + 1) (some c) rest

def findIter (toks : List RTok) (s : List Char) : List (Nat × List Char) :=
  scanAux toks (s.length + 1) 0 none s

/-- `re.search(pattern, s)`: the first match, if any. -/
def reSearch (toks : List RTok) (s : List Char) : Option (Nat × List Char) :=
  (findIter toks s).head?

/-! ## Quality schemas (src/quality/schemas.py) -/

inductive QualityIssueType where
  | uncertainty
  | incomplete
  | failed_reasoning
  | too_short
  | repetition
  | refusal
  deriving DecidableEq

structure QualityIssue where
  issue_type : QualityIssueType
  description : String
  severity : ℚ
  evidence : Option String
  deriving DecidableEq

structure QualityAssessment where
  quality_score : ℤ
  issues : List QualityIssue
  should_escalate : Bool
  escalation_reason : Option String
  confidence : ℚ
  deriving DecidableEq

/-! ## Quality pattern catalogues (src/quality/detectors.py), compiled -/

/-- `UNCERTAINTY_PATTERNS`, in source order. -/
def UNCERTAINTY_PATTERNS : List (List RTok) :=
  [ [.alts ["i'm".toList, "im".toList], .lit " not ".toList,
     .alts ["entirely ".toList, "completely ".toList, "fully ".toList, [] ], .lit "sure".toList],
    [.alts ["i'm".toList, "im".toList], .lit " not certain".toList],
    [.alts ["i'm".toList, "im".toList], .lit " uncertain".toList],
    [.lit "might be".toList],
    [.lit "may be".toList],
    [.lit "possibly".toList],
    [.lit "perhaps".toList],
    [.lit "i think".toList, .notFollowedBy " that".toList],
    [.lit "i believe".toList, .notFollowedBy " that".toList],
    [.lit "it seems like".toList],
    [.lit "it appears ".toList, .alts ["to be ".toList, "that ".toList]],
    [.lit "could be".toList],
    [.lit "probably".toList],
    [.lit "not 100% sure".toList],
    [.lit "hard to say".toList],
    [.lit "difficult to determine".toList],
    [.lit "i don".toList, .alts ["'t".toList, "t".toList], .lit " ".toList,
     .alts ["really ".toList, [] ], .lit "know".toList],
    [.alts ["this".toList, "that".toList], .lit " is ".toList, .alts ["just ".toList, [] ],
     .alts ["a ".toList, "my ".toList, [] ], .lit "guess".toList],
    [.lit "if i had to guess".toList],
    [.lit "take this with a grain of salt".toList] ]

/-- `FAILED_REASONING_PATTERNS`, in source order. `.{0,n}` gaps exclude
newlines, as Python `.` does without `re.DOTALL`. -/
def FAILED_REASONING_PATTERNS : List (List RTok) :=
  [ [.lit "i cannot ".toList,
     .alts ["help".toList, "assist".toList, "provide".toList, "answer".toList]],
    [.lit "i am unable to".toList],
    [.alts ["i'm".toList, "im".toList], .lit " unable to".toList],
    [.lit "i don".toList, .alts ["'t".toList, "t".toList], .lit " have ".toList,
     .alts ["the ".toList, "enough ".toList, [] ],
     .alts ["ability".toList, "capability".toList, "information".toList, "access".toList]],
    [.alts ["this".toList, "that".toList], .lit " is ".toList,
     .alts ["beyond".toList, "outside".toList], .lit " ".toList,
     .alts ["my".toList, "the".toList], .lit " ".toList,
     .alts ["capabilities".toList, "scope".toList, "knowledge".toList]],
    [.lit "i apologize".toList, .bounded (fun c => c != '\n') 50, .lit "cannot".toList],
    [.alts ["i'm".toList, "im".toList], .lit " sorry".toList, .bounded (fun c => c != '\n') 30,
     .alts ["cannot".toList, "can't".toList, "unable".toList]],
    [.lit "unfortunately".toList, .bounded (fun c => c != '\n') 30,
     .alts ["cannot".toList, "can't".toList, "unable".toList]],
    [.alts ["i'm".toList, "im".toList], .lit " not able to".toList] ]

/-- `REFUSAL_PATTERNS`, in source order. -/
def REFUSAL_PATTERNS : List (List RTok) :=
  [ [.lit "i ".toList,
     .alts ["cannot".toList, "can't".toList, "won't".toList, "will not".toList],
     .lit " ".toList, .alts ["help".toList, "assist".toList], .lit " with ".toList,
     .alts ["that".toList, "this".toList]],
    [.alts ["this".toList, "that".toList], .lit " ".toList,
     .alts ["request".toList, "question".toList], .lit " ".toList,
     .alts ["is".toList, "seems".toList], .lit " ".toList,
     .alts ["inappropriate".toList, "harmful".toList]],
    [.alts ["i'm".toList, "im".toList], .lit " not ".toList,
     .alts ["going to".toList, "able to".toList], .lit " ".toList,
     .alts ["help".toList, "assist".toList], .lit " with".toList],
    [.alts ["that's".toList, "this is".toList], .lit " not something i can".toList],
    [.lit "i have to decline".toList],
    [.lit "i must refuse".toList] ]

/-! ## Quality detectors (src/quality/detectors.py) -/

/-- `detect_uncertainty`: all matches of every uncertainty pattern over the
lowered text; if any, one issue with severity `min(0.8, 0.2·count)` and the
first match (truncated to 50 chars) as evidence. -/
def detect_uncertainty (text : List Char) : List QualityIssue :=
  let text_lower := lowerText text
  let matches_found := (UNCERTAINTY_PATTERNS.map fun p => (findIter p text_lower).map Prod.snd).flatten
  match matches_found with
  | [] => []
  | first :: _ =>
    [{ issue_type := .uncertainty,
       description := "Found " ++ toString matches_found.length ++ " uncertainty phrase(s)",
       severity := min 0.8 (0.2 * (matches_found.length : ℚ)),
       evidence := some (String.mk (first.take 50)) }]

/-- `INCOMPLETE_PATTERNS`, written out as end-of-text checks. Each `X\s*$`
pattern holds iff the text, with trailing whitespace dropped, ends in `X`
(`\s` matches the newline `$` may stop before). -/
def incomplete_ellipsis (text : List Char) : Bool :=
  "...".toList.isSuffixOf (dropTrailing pyIsSpace text)

def incomplete_unicode_ellipsis (text : List Char) : Bool :=
  "â€¦".toList.isSuffixOf (dropTrailing pyIsSpace text)

/-- `(?:etc|and so on|and more|and others)\s*\.?\s*$` on the lowered text. -/
def incomplete_etc (text : List Char) : Bool :=
  let t1 := dropTrailing pyIsSpace (lowerText text)
  let t2 := if t1.getLast? == some '.' then t1.dropLast else t1
  let t3 := dropTrailing pyIsSpace t2
  "etc".toList.isSuffixOf t3 || "and so on".toList.isSuffixOf t3 ||
    "and more".toList.isSuffixOf t3 || "and others".toList.isSuffixOf t3

def incomplete_colon (text : List Char) : Bool :=
  ":".toList.isSuffixOf (dropTrailing pyIsSpace text)

/-- `\d+\.\s*$`: ends (before trailing whitespace) with a digit then a dot. -/
def incomplete_numbered_item (text : List Char) : Bool :=
  match (dropTrailing pyIsSpace text).reverse with
  | '.' :: d :: _ => d.isDigit
  | _ => false

/-- `(?:First|1\.)[^.]*$`: an occurrence of "first" or "1." (case-insensitive)
whose whole tail is free of dots. -/
def incomplete_unfinished_list : List Char → Bool
  | [] => false
  | c :: rest =>
    (ciPrefix "first".toList (c :: rest) && !((rest.drop 4).contains '.'))
      || (ciPrefix "1.".toList (c :: rest) && !((rest.drop 1).contains '.'))
      || incomplete_unfinished_list rest

/-- `let me know if you.{0,30}$`: an occurrence whose tail, apart from one
final newline, has no newline and at most 30 characters. -/
def incomplete_let_me_know : List Char → Bool
  | [] => false
  | c :: rest =>
    (ciPrefix "let me know if you".toList (c :: rest) &&
      (let tail := rest.drop 17
       let tail' := if tail.getLast? == some '\n' then tail.dropLast else tail
       decide (tail'.length ≤ 30) && !(tail'.contains '\n')))
      || incomplete_let_me_know rest

/-- Whether any of the nine `INCOMPLETE_PATTERNS` matches (`re.search` with
`re.IGNORECASE`). -/
def incompleteMatches (text : List Char) : Bool :=
  incomplete_ellipsis text || incomplete_unicode_ellipsis text || incomplete_etc text ||
    incomplete_colon text || incomplete_numbered_item text ||
    incomplete_unfinished_list (lowerText text) ||
    containsSub "to be continued".toList text || containsSub "i'll continue".toList text ||
    incomplete_let_me_know text

/-- `detect_incomplete`: one issue of severity 0.7 on the first matching
pattern, with the last 100 characters as evidence. -/
def detect_incomplete (text : List Char) : List QualityIssue :=
  if incompleteMatches text then
    [{ issue_type := .incomplete,
       description := "Response appears to be incomplete",
       severity := 0.7,
       evidence := some (String.mk (if text.length > 100
         then pyStrip (text.drop (text.length - 100)) else pyStrip text)) }]
  else []

/-- `detect_failed_reasoning`: first matching pattern gives one issue of
severity 0.9, evidence the matched text truncated to 50 characters. -/
def detect_failed_reasoning (text : List Char) : List QualityIssue :=
  let text_lower := lowerText text
  match FAILED_REASONING_PATTERNS.findSome? (fun p => reSearch p text_lower) with
  | none => []
  | some m =>
    [{ issue_type := .failed_reasoning,
       description := "Response indicates inability to complete task",
       severity := 0.9,
       evidence := some (String.mk (m.2.take 50)) }]

/-- `detect_refusal`: first matching pattern gives one issue of severity 1.0. -/
def detect_refusal (text : List Char) : List QualityIssue :=
  let text_lower := lowerText text
  match REFUSAL_PATTERNS.findSome? (fun p => reSearch p text_lower) with
  | none => []
  | some m =>
    [{ issue_type := .refusal,
       description := "Model refused to answer the request",
       severity := 1.0,
       evidence := some (String.mk (m.2.take 50)) }]

/-- `detect_too_short`: expected minimum grows with prompt complexity. -/
def detect_too_short (text : List Char) (min_length prompt_complexity : ℤ) :
    List QualityIssue :=
  let text_stripped := pyStrip text
  let expected_min := min_length + prompt_complexity * 2
  if (text_stripped.length : ℤ) < expected_min then
    [{ issue_type := .too_short,
       description := "Response is only " ++ toString text_stripped.length ++
         " characters (expected >" ++ toString expected_min ++ ")",
       severity := min 0.7 (max 0.3 (1 - (text_stripped.length : ℚ) / (expected_min : ℚ))),
       evidence := some (String.mk (if text_stripped.isEmpty then "(empty)".toList
         else text_stripped.take 100)) }]
  else []

def isSentencePunct (c : Char) : Bool :=
  c == '.' || c == '!' || c == '?'

/-- `re.split(r"[.!?]+", text)`, splitting at each separator; a separator run
then yields extra empty fragments, which the length filter below removes
exactly as it removes the run-splitting's empties. -/
def splitSentAux : List Char → List Char → List (List Char)
  | [], acc => [acc.reverse]
  | c :: rest, acc =>
    if isSentencePunct c then acc.reverse :: splitSentAux rest []
    else splitSentAux rest (c :: acc)

def joinSpace (ws : List (List Char)) : List Char :=
  List.intercalate [' '] ws

/-- The phrase-repetition scan: the first window of three consecutive words
whose space-joined text occurs again in the space-joined remainder. -/
def findPhraseRep : List (List Char) → Option (List Char)
  | [] => none
  | w :: rest =>
    if rest.length < 6 then none
    else
      let phrase := joinSpace (List.take 3 (w :: rest))
      if containsSub phrase (joinSpace (List.drop 3 (w :: rest))) then some phrase
      else findPhraseRep rest

/-- `detect_repetition`: repeated sentences (ratio over 30%), then repeated
three-word phrases (at most one extra issue). -/
def detect_repetition (text : List Char) : List QualityIssue :=
  let frags := (splitSentAux text []).map fun s => lowerText (pyStrip s)
  let sentences := frags.filter fun s => 10 < s.length
  let ratio_issues :=
    if sentences.length < 3 then ([] : List QualityIssue)
    else
      let repRatioQ : ℚ := 1 - (sentences.dedup.length : ℚ) / (sentences.length : ℚ)
      if 0.3 < repRatioQ then
        [{ issue_type := .repetition,
           description := "High repetition ratio: " ++
             toString (roundHalfEven (repRatioQ * 100)) ++ "%",
           severity := min 0.8 repRatioQ,
           evidence := none }]
      else []
  let words := pySplitWs (lowerText text)
  if words.length > 10 then
    match findPhraseRep words with
    | some phrase =>
      if ratio_issues.any (fun i => i.issue_type == QualityIssueType.repetition) then
        ratio_issues
      else
        ratio_issues ++
          [{ issue_type := .repetition,
             description := "Contains repeated phrases",
             severity := 0.5,
             evidence := some (String.mk phrase) }]
    | none => ratio_issues
  else ratio_issues

/-! ## Quality checker (src/quality/service.py) -/

structure QCSettings where
  quality_threshold : ℤ
  min_response_length : ℤ
  deriving DecidableEq

/-- The defaults: `quality_threshold = 60` (src/config.py),
`min_response_length = 50`. -/
def defaultQS : QCSettings :=
  { quality_threshold := 60, min_response_length := 50 }

/-- `QualityChecker._calculate_score`. -/
def calculate_score (issues : List QualityIssue) : ℤ :=
  if issues.isEmpty then 100
  else
    let total_penalty : ℚ := (issues.map fun i => i.severity * 25).sum
    max 0 (pyInt (100 - total_penalty))

/-- `QualityChecker._calculate_confidence`. -/
def calculate_confidence (issues : List QualityIssue) (response_text : List Char) : ℚ :=
  let length_factor := min 1 ((response_text.length : ℚ) / 500)
  let issue_clarity :=
    if issues.isEmpty then (0.7 : ℚ)
    else (issues.map fun i => i.severity).sum / (issues.length : ℚ)
  pyRound2 (min 1 (length_factor * 0.4 + issue_clarity * 0.6))

/-- Python `max(issues, key=severity)`: the first issue of maximal severity. -/
def mainIssue (first : QualityIssue) (rest : List QualityIssue) : QualityIssue :=
  rest.foldl (fun best i => if best.severity < i.severity then i else best) first

/-- `QualityChecker.check`. -/
def check (S : QCSettings) (response_text : List Char) (prompt_complexity : ℤ) :
    QualityAssessment :=
  if response_text.isEmpty || (pyStrip response_text).isEmpty then
    { quality_score := 0,
      issues := [{ issue_type := .too_short, description := "Response is empty",
                   severity := 1.0, evidence := some "(empty response)" }],
      should_escalate := true,
      escalation_reason := some "Empty response received",
      confidence := 1.0 }
  else
    let all_issues :=
      detect_uncertainty response_text ++ detect_incomplete response_text ++
        detect_failed_reasoning response_text ++ detect_refusal response_text ++
        detect_too_short response_text S.min_response_length prompt_complexity ++
        detect_repetition response_text
    let quality_score := calculate_score all_issues
    let should_escalate : Bool := quality_score < S.quality_threshold
    let escalation_reason :=
      if should_escalate && !all_issues.isEmpty then
        some ("Quality score " ++ toString quality_score ++ " below threshold (" ++
          toString S.quality_threshold ++ "). Main issue: " ++
          (match all_issues with
           | [] => ""
           | first :: rest => (mainIssue first rest).description))
      else if should_escalate then
        some ("Quality score " ++ toString quality_score ++ " below threshold (" ++
          toString S.quality_threshold ++ ")")
      else none
    { quality_score := quality_score,
      issues := all_issues,
      should_escalate := should_escalate,
      escalation_reason := escalation_reason,
      confidence := calculate_confidence all_issues response_text }

/-! ## Analyzer schemas (src/analyzer/schemas.py) -/

inductive SignalType where
  | reasoning_keyword
  | code_block
  | math_expression
  | multipart_question
  | length
  deriving DecidableEq

structure DetectedSignal where
  signal_type : SignalType
  value : List Char
  weight : ℚ
  position : Option Nat
  deriving DecidableEq

inductive ComplexityLevel where
  | low
  | medium
  | high
  deriving DecidableEq

structure ComplexityAnalysis where
  complexity_score : ℤ
  confidence : ℚ
  level : ComplexityLevel
  detected_signals : List DetectedSignal
  prompt_length : Nat
  reasoning : String
  deriving DecidableEq

/-! ## Analyzer constants (src/analyzer/constants.py) -/

/-- `REASONING_KEYWORDS` with `KEYWORD_WEIGHTS` zipped in: the levels in
dict order (high 0.9, medium 0.6, low 0.3), each with its keyword list in
source order. -/
def REASONING_KEYWORDS : List (ℚ × List (List Char)) :=
  [ (0.9, ["analyze".toList, "analyse".toList, "compare".toList, "contrast".toList,
      "evaluate".toList, "assess".toList, "design".toList, "architect".toList,
      "debug".toList, "troubleshoot".toList, "optimize".toList, "refactor".toList,
      "prove".toList, "derive".toList, "step by step".toList, "step-by-step".toList,
      "explain why".toList, "reasoning".toList, "trade-off".toList, "tradeoff".toList,
      "pros and cons".toList, "advantages and disadvantages".toList, "critically".toList,
      "in-depth".toList, "comprehensive".toList]),
    (0.6, ["explain".toList, "describe".toList, "summarize".toList, "how does".toList,
      "how do".toList, "what if".toList, "implement".toList, "create".toList,
      "build".toList, "develop".toList, "solve".toList, "calculate".toList,
      "compute".toList, "determine".toList, "figure out".toList, "work through".toList,
      "walk through".toList, "help me understand".toList, "elaborate".toList,
      "clarify".toList]),
    (0.3, ["what is".toList, "what are".toList, "define".toList, "list".toList,
      "name".toList, "when".toList, "where".toList, "who".toList, "translate".toList,
      "convert".toList, "format".toList, "give me".toList, "tell me".toList,
      "show me".toList]) ]

/-- `CODE_PATTERNS`, compiled (applied with `re.IGNORECASE | re.MULTILINE`). -/
def CODE_PATTERNS : List (List RTok) :=
  [ [.lit "```".toList, .starLazy (fun _ => true), .lit "```".toList],
    [.lit "`".toList, .plusGreedy (fun c => c != '`'), .lit "`".toList],
    [.lit "def".toList, .plusGreedy pyIsSpace, .plusGreedy isWordChar,
     .starGreedy pyIsSpace, .lit "(".toList],
    [.lit "function".toList, .plusGreedy pyIsSpace, .plusGreedy isWordChar,
     .starGreedy pyIsSpace, .lit "(".toList],
    [.lit "class".toList, .plusGreedy pyIsSpace, .plusGreedy isWordChar,
     .one (fun c => pyIsSpace c || c == ':' || c == '{')],
    [.lit "import".toList, .plusGreedy pyIsSpace,
     .plusGreedy (fun c => isWordChar c || c == '.')],
    [.lit "from".toList, .plusGreedy pyIsSpace,
     .plusGreedy (fun c => isWordChar c || c == '.'), .plusGreedy pyIsSpace,
     .lit "import".toList],
    [.lit "const".toList, .plusGreedy pyIsSpace, .plusGreedy isWordChar,
     .starGreedy pyIsSpace, .lit "=".toList],
    [.lit "let".toList, .plusGreedy pyIsSpace, .plusGreedy isWordChar,
     .starGreedy pyIsSpace, .lit "=".toList],
    [.lit "var".toList, .plusGreedy pyIsSpace, .plusGreedy isWordChar,
     .starGreedy pyIsSpace, .lit "=".toList],
    [.lit "public".toList, .plusGreedy pyIsSpace,
     .opt [.lit "static".toList, .plusGreedy pyIsSpace],
     .alts ["void".toList, "int".toList, "string".toList, "bool".toList]],
    [.lit "async".toList, .plusGreedy pyIsSpace, .alts ["def".toList, "function".toList]],
    [.lit "=>".toList, .starGreedy pyIsSpace, .one (fun c => c == '{')],
    [.lit "select".toList, .plusGreedy pyIsSpace, .plusGreedy (fun c => c != '\n'),
     .plusGreedy pyIsSpace, .lit "from".toList],
    [.lit "create".toList, .plusGreedy pyIsSpace, .lit "table".toList] ]

def isMathSymbolChar (c : Char) : Bool :=
  "∫∑∏√∞≤≥≠±×÷".toList.contains c

/-- `MATH_PATTERNS`, compiled (applied with `re.IGNORECASE`). -/
def MATH_PATTERNS : List (List RTok) :=
  [ [.lit "$$".toList, .starLazy (fun _ => true), .lit "$$".toList],
    [.lit "$".toList, .plusGreedy (fun c => c != '$'), .lit "$".toList],
    [.lit "\\frac".toList, .one (fun c => c == '{')],
    [.lit "\\sum".toList],
    [.lit "\\int".toList],
    [.plusGreedy Char.isDigit, .starGreedy pyIsSpace,
     .one (fun c => c == '+' || c == '-' || c == '*' || c == '/' || c == '^'),
     .starGreedy pyIsSpace, .plusGreedy Char.isDigit],
    [.plusGreedy Char.isDigit, .starGreedy pyIsSpace,
     .one (fun c => c == '=' || c == '<' || c == '>'),
     .starGreedy pyIsSpace, .plusGreedy Char.isDigit],
    [.one isMathSymbolChar],
    [.wordB, .alts ["integral".toList, "derivative".toList, "matrix".toList,
       "vector".toList, "equation".toList, "formula".toList], .wordB],
    [.wordB, .alts ["polynomial".toList, "factorial".toList, "logarithm".toList,
       "exponential".toList, "trigonometric".toList], .wordB],
    [.wordB, .alts ["probability".toList, "statistics".toList, "regression".toList,
       "correlation".toList], .wordB] ]

/-- `MULTIPART_PATTERNS`, compiled (applied with
`re.IGNORECASE | re.MULTILINE`). -/
def MULTIPART_PATTERNS : List (List RTok) :=
  [ [.lineStart, .starGreedy pyIsSpace, .plusGreedy Char.isDigit,
     .one (fun c => c == '.' || c == ')'), .plusGreedy pyIsSpace],
    [.lineStart, .starGreedy pyIsSpace, .one Char.isAlpha,
     .one (fun c => c == '.' || c == ')'), .plusGreedy pyIsSpace],
    [.lineStart, .starGreedy pyIsSpace, .one (fun c => c == '-' || c == '*' || c == '•'),
     .plusGreedy pyIsSpace],
    [.wordB, .alts ["first".toList, "firstly".toList, "second".toList, "secondly".toList,
       "third".toList, "thirdly".toList, "finally".toList], .wordB],
    [.wordB, .alts ["additionally".toList, "moreover".toList, "furthermore".toList,
       "also".toList], .wordB],
    [.wordB, .alts ["and also".toList, "as well as".toList, "in addition".toList,
       "on top of that".toList], .wordB],
    [.lit "?".toList, .starGreedy pyIsSpace, .lit "\n".toList,
     .starGreedy (fun c => c != '\n'), .lit "?".toList],
    [.lit "?".toList, .plusGreedy pyIsSpace,
     .alts ["and".toList, "also".toList, "what".toList, "how".toList, "why".toList,
       "can".toList]] ]

/-! ## Signal detectors (src/analyzer/signals.py)

The `try/except re.error` wrappers in the source are no-ops here: every
pattern in the catalogues compiles. -/

def detect_reasoning_keywords (text : List Char) : List DetectedSignal :=
  let text_lower := lowerText text
  (REASONING_KEYWORDS.map fun lw =>
    (lw.2.map fun kw =>
      (findIter [RTok.lit kw] text_lower).map fun m =>
        ({ signal_type := .reasoning_keyword, value := kw, weight := lw.1,
           position := some m.1 } : DetectedSignal)).flatten).flatten

def detect_code_blocks (text : List Char) : List DetectedSignal :=
  (CODE_PATTERNS.map fun p =>
    (findIter p text).map fun m =>
      ({ signal_type := .code_block,
         value := if m.2.length > 50 then m.2.take 50 ++ "...".toList else m.2,
         weight := 0.7, position := some m.1 } : DetectedSignal)).flatten

def detect_math_expressions (text : List Char) : List DetectedSignal :=
  (MATH_PATTERNS.map fun p =>
    (findIter p text).map fun m =>
      ({ signal_type := .math_expression,
         value := if m.2.length > 30 then m.2.take 30 ++ "...".toList else m.2,
         weight := 0.8, position := some m.1 } : DetectedSignal)).flatten

def detect_multipart_questions (text : List Char) : List DetectedSignal :=
  (MULTIPART_PATTERNS.map fun p =>
    (findIter p text).map fun m =>
      let matched_text := pyStrip m.2
      ({ signal_type := .multipart_question,
         value := if matched_text.length > 30 then matched_text.take 30 ++ "...".toList
           else matched_text,
         weight := 0.5, position := some m.1 } : DetectedSignal)).flatten

/-- `calculate_length_signal`, with `LENGTH_THRESHOLDS`
{very_short 50, short 100, medium 500, long 1000, very_long 2000} inlined. -/
def calculate_length_signal (text : List Char) : DetectedSignal :=
  let length := text.length
  let weight : ℚ :=
    if length < 50 then 0.1
    else if length < 100 then 0.2
    else if length < 500 then 0.4
    else if length < 1000 then 0.6
    else if length < 2000 then 0.8
    else min 0.9 (0.8 + ((length : ℚ) - 2000) / 10000)
  { signal_type := .length, value := (toString length).toList ++ " characters".toList,
    weight := weight, position := none }

def sameKey (a b : DetectedSignal) : Bool :=
  a.signal_type == b.signal_type && lowerText a.value == lowerText b.value

/-- One step of `deduplicate_signals`: a Python dict keyed by
`(type, value.lower())`, keeping insertion position on overwrite and
overwriting only for strictly higher weight. -/
def dedupInsert (acc : List DetectedSignal) (s : DetectedSignal) : List DetectedSignal :=
  if acc.any (fun t => sameKey t s) then
    acc.map fun t => if sameKey t s && t.weight < s.weight then s else t
  else acc ++ [s]

def deduplicate_signals (signals : List DetectedSignal) : List DetectedSignal :=
  signals.foldl dedupInsert []

/-! ## Prompt analyzer (src/analyzer/service.py) -/

/-- `SIGNAL_WEIGHTS`, the analyzer's default category weights. -/
structure AnalyzerWeights where
  keyword : ℚ
  code : ℚ
  math : ℚ
  multipart : ℚ
  length : ℚ
  deriving DecidableEq

def SIGNAL_WEIGHTS : AnalyzerWeights :=
  { keyword := 0.35, code := 0.25, math := 0.20, multipart := 0.10, length := 0.10 }

/-- The decayed sum over the first `n` weights of a (descending) list:
`Σ wᵢ · d · 0.7ⁱ`. -/
def decayTop : List ℚ → Nat → ℚ → ℚ
  | [], _, _ => 0
  | _ :: _, 0, _ => 0
  | w :: ws, n + 1, d => w * d + decayTop ws n (d * 0.7)

/-- `aggregate_signals` (inner function of `_calculate_score`): sort the
weights descending, keep at most 5, sum with geometric decay 0.7ⁿ, cap at 1. -/
def aggregate_signals (signals : List DetectedSignal) : ℚ :=
  if signals.isEmpty then 0
  else
    min 1 (decayTop (List.insertionSort (fun a b => a ≥ b)
      (signals.map fun s => s.weight)) 5 1)

/-- `PromptAnalyzer._calculate_score`. -/
def calculate_complexity_score (W : AnalyzerWeights)
    (keyword_signals code_signals math_signals multipart_signals : List DetectedSignal)
    (length_signal : DetectedSignal) : ℤ :=
  let keyword_score := aggregate_signals keyword_signals * W.keyword
  let code_score := aggregate_signals code_signals * W.code
  let math_score := aggregate_signals math_signals * W.math
  let multipart_score := aggregate_signals multipart_signals * W.multipart
  let length_score := length_signal.weight * W.length
  let total := keyword_score + code_score + math_score + multipart_score + length_score
  pyInt (min 100 (total * 100))

/-- `PromptAnalyzer._calculate_confidence`. -/
def calculate_analyzer_confidence (signals : List DetectedSignal) (score : ℤ) : ℚ :=
  if signals.isEmpty then 0.5
  else
    let avg_weight := (signals.map fun s => s.weight).sum / (signals.length : ℚ)
    let count_factor := min 1 ((signals.length : ℚ) / 5)
    let extremity := |(score : ℚ) - 50| / 50
    pyRound2 (avg_weight * 0.4 + count_factor * 0.3 + extremity * 0.3)

/-- `PromptAnalyzer._score_to_level`. -/
def score_to_level (score : ℤ) : ComplexityLevel :=
  if score < 30 then .low
  else if score < 70 then .medium
  else .high

/-- `PromptAnalyzer._generate_reasoning`. -/
def generate_reasoning
    (keyword_signals code_signals math_signals multipart_signals : List DetectedSignal)
    (length_signal : DetectedSignal) (score : ℤ) : String :=
  let reasons : List String :=
    (if !keyword_signals.isEmpty then
      ["Contains reasoning keywords: " ++
        String.intercalate ", " ((keyword_signals.take 3).map fun s => String.mk s.value)]
     else []) ++
    (if !code_signals.isEmpty then
      ["Contains " ++ toString code_signals.length ++ " code block(s)"] else []) ++
    (if !math_signals.isEmpty then ["Contains mathematical expressions"] else []) ++
    (if !multipart_signals.isEmpty then ["Contains multi-part question structure"] else []) ++
    ["Prompt length: " ++ String.mk length_signal.value]
  "Score " ++ toString score ++ "/100. " ++ String.intercalate "; " reasons

/-- `PromptAnalyzer.analyze`. -/
def analyze (W : AnalyzerWeights) (prompt : List Char) : ComplexityAnalysis :=
  if prompt.isEmpty || (pyStrip prompt).isEmpty then
    { complexity_score := 0, confidence := 1.0, level := .low, detected_signals := [],
      prompt_length := 0, reasoning := "Empty prompt" }
  else
    let keyword_signals := deduplicate_signals (detect_reasoning_keywords prompt)
    let code_signals := deduplicate_signals (detect_code_blocks prompt)
    let math_signals := deduplicate_signals (detect_math_expressions prompt)
    let multipart_signals := deduplicate_signals (detect_multipart_questions prompt)
    let length_signal := calculate_length_signal prompt
    let all_signals := keyword_signals ++ code_signals ++ math_signals ++
      multipart_signals ++ [length_signal]
    let score := calculate_complexity_score W keyword_signals code_signals math_signals
      multipart_signals length_signal
    { complexity_score := score,
      confidence := calculate_analyzer_confidence all_signals score,
      level := score_to_level score,
      detected_signals := all_signals,
      prompt_length := prompt.length,
      reasoning := generate_reasoning keyword_signals code_signals math_signals
        multipart_signals length_signal score }

/-! ## Routing strategies (src/router/strategies.py, src/router/schemas.py)

`timestamp` fields come from the injected clock and carry no logic; they are
omitted from the embedding. -/

inductive ModelTier where
  | fast
  | complex
  deriving DecidableEq

structure RoutingDecision where
  selected_model : String
  tier : ModelTier
  complexity_score : ℤ
  confidence : ℚ
  reasoning : String
  requires_quality_check : Bool
  deriving DecidableEq

/-- `ThresholdRoutingStrategy.decide`. -/
def ThresholdRoutingStrategy.decide (low_threshold high_threshold : ℤ)
    (analysis : ComplexityAnalysis) (fast_model complex_model : String) : RoutingDecision :=
  let score := analysis.complexity_score
  if high_threshold ≤ score then
    { selected_model := complex_model, tier := .complex, complexity_score := score,
      confidence := analysis.confidence,
      reasoning := "High complexity (" ++ toString score ++ ") exceeds threshold (" ++
        toString high_threshold ++ ")",
      requires_quality_check := false }
  else if score < low_threshold then
    { selected_model := fast_model, tier := .fast, complexity_score := score,
      confidence := analysis.confidence,
      reasoning := "Low complexity (" ++ toString score ++ ") below threshold (" ++
        toString low_threshold ++ ")",
      requires_quality_check := false }
  else
    { selected_model := fast_model, tier := .fast, complexity_score := score,
      confidence := analysis.confidence,
      reasoning := "Medium complexity (" ++ toString score ++
        ") - using fast model with quality check",
      requires_quality_check := true }

/-! ## LLM response schema (src/llm/schemas.py)

`id` and `created_at` come from the back-end and the clock; no logic reads
them, so they are omitted. -/

structure TokenUsage where
  prompt_tokens : Nat
  completion_tokens : Nat
  total_tokens : Nat
  deriving DecidableEq

structure ChatResponse where
  content : List Char
  model : String
  usage : TokenUsage
  finish_reason : Option String
  latency_ms : ℚ
  deriving DecidableEq

/-! ## Metrics cost formula (src/metrics/service.py) -/

/-- `MetricsService._calculate_cost`. -/
def calculate_cost (response : ChatResponse) (model : String) : ℚ :=
  let is_flash := containsSub "flash".toList (lowerText model.toList) &&
    !(containsSub "pro".toList (lowerText model.toList))
  let input_rate : ℚ := if is_flash then 0.075 else 1.25
  let output_rate : ℚ := if is_flash then 0.30 else 5.00
  let input_cost := ((response.usage.prompt_tokens : ℚ) / 1000000) * input_rate
  let output_cost := ((response.usage.completion_tokens : ℚ) / 1000000) * output_rate
  input_cost + output_cost

/-! ## Escalation handler (src/escalation/service.py, src/escalation/schemas.py)

The back-end capability `llm_client.generate` is abstracted as an oracle
`gen : attempt index → model → Option ChatResponse`; `none` is a back-end
error, which the source lets propagate before any chain is built, so the
handler returns `none` with the partial chain discarded. `temperature` and
`max_tokens` are forwarded to the back-end untouched and are folded into the
oracle. `request_id` models the injected `uuid` source; `timestamp` fields
are omitted as above. -/

structure Message where
  role : String
  content : List Char
  deriving DecidableEq

structure EscalationStep where
  model_used : String
  response_preview : List Char
  quality_score : ℤ
  escalated : Bool
  latency_ms : ℚ
  deriving DecidableEq

structure EscalationChain where
  request_id : String
  original_prompt_preview : List Char
  steps : List EscalationStep
  final_model : String
  final_response : List Char
  total_attempts : Nat
  total_latency_ms : ℚ
  escalation_prevented_loop : Bool
  deriving DecidableEq

/-- `x[:200] + "..." if len(x) > 200 else x`. -/
def preview200 (s : List Char) : List Char :=
  if s.length > 200 then s.take 200 ++ "...".toList else s

/-- The settings the handler reads: `settings.complex_model` and
`settings.max_escalation_depth` (src/config.py clamps the latter to [1,5]). -/
structure EscSettings where
  complex_model : String
  max_escalation_depth : Nat
  deriving DecidableEq

structure LoopResult where
  steps : List EscalationStep
  total_latency_ms : ℚ
  current_model : String
  loop_prevented : Bool
  final_response : Option ChatResponse
  deriving DecidableEq

/-- The `EscalationStep` record one loop iteration appends: `escalated` is
the computed `should_escalate = quality.should_escalate and
attempt < max_depth and current_model != complex_model`. -/
def mkStep (qcS : QCSettings) (S : EscSettings) (complexity_score : ℤ) (attempt : Nat)
    (current_model : String) (response : ChatResponse) : EscalationStep :=
  { model_used := current_model,
    response_preview := preview200 response.content,
    quality_score := (check qcS response.content complexity_score).quality_score,
    escalated := (check qcS response.content complexity_score).should_escalate &&
      decide (attempt < S.max_escalation_depth) && !(current_model == S.complex_model),
    latency_ms := response.latency_ms }

/-- The `for attempt in range(max_depth + 1)` loop of
`handle_with_escalation`, as recursion on the remaining iteration count.
The `remaining = 0` base case is Python's loop running out of iterations
with `final_response` still `None` (unreachable from the entry point, which
starts with `max_depth + 1 ≥ 1` iterations and breaks at the last one). -/
def escalationGo (S : EscSettings) (qcS : QCSettings)
    (gen : Nat → String → Option ChatResponse) (complexity_score : ℤ) :
    Nat → Nat → String → List EscalationStep → ℚ → LoopResult
  | 0, _, current_model, steps, lat =>
    { steps := steps, total_latency_ms := lat, current_model := current_model,
      loop_prevented := false, final_response := none }
  | remaining + 1, attempt, current_model, steps, lat =>
    match gen attempt current_model with
    | none =>
      { steps := steps, total_latency_ms := lat, current_model := current_model,
        loop_prevented := false, final_response := none }
    | some response =>
      let lat' := lat + response.latency_ms
      let quality := check qcS response.content complexity_score
      let steps' := steps ++ [mkStep qcS S complexity_score attempt current_model response]
      if !quality.should_escalate then
        { steps := steps', total_latency_ms := lat', current_model := current_model,
          loop_prevented := false, final_response := some response }
      else if S.max_escalation_depth ≤ attempt then
        { steps := steps', total_latency_ms := lat', current_model := current_model,
          loop_prevented := true, final_response := some response }
      else if current_model == S.complex_model then
        { steps := steps', total_latency_ms := lat', current_model := current_model,
          loop_prevented := false, final_response := some response }
      else
        escalationGo S qcS gen complexity_score remaining (attempt + 1) S.complex_model
          steps' lat'

/-- `EscalationHandler.handle_with_escalation`. A normal return is `some`;
`none` is a propagated back-end error (no chain escapes in that case). -/
def handle_with_escalation (S : EscSettings) (qcS : QCSettings)
    (gen : Nat → String → Option ChatResponse) (request_id : String)
    (messages : List Message) (initial_model : String) (complexity_score : ℤ) :
    Option (ChatResponse × EscalationChain) :=
  let prompt := match messages.getLast? with
    | some m => m.content
    | none => []
  let prompt_preview := preview200 prompt
  let res := escalationGo S qcS gen complexity_score (S.max_escalation_depth + 1) 0
    initial_model [] 0
  match res.final_response with
  | none => none
  | some final_response =>
    some (final_response,
      { request_id := request_id, original_prompt_preview := prompt_preview,
        steps := res.steps, final_model := res.current_model,
        final_response := final_response.content, total_attempts := res.steps.length,
        total_latency_ms := res.total_latency_ms,
        escalation_prevented_loop := res.loop_prevented })

end RouterSpec

namespace RouterSpec

/-! ## Helper lemmas -/

theorem reason_isSome_shape (se b : Bool) (x y : String) :
    (if se && b then some x else if se then some y else none).isSome = se := by
  cases se <;> cases b <;> rfl

theorem calculate_score_formula (issues : List QualityIssue) :
    calculate_score issues =
      max 0 (pyInt (100 - ((issues.map fun i => i.severity * 25).sum))) := by
  unfold calculate_score
  split
  · next h =>
    rw [List.isEmpty_iff] at h
    subst h
    have h100 : pyInt ((100 : ℚ) - (([] : List QualityIssue).map fun i => i.severity * 25).sum)
        = 100 := by
      unfold pyInt
      norm_num
    rw [h100]
    decide
  · rfl

/-! ## Claim theorems -/

/-- C10: for every response text and complexity, `QualityChecker.check`
returns a non-`None` `escalation_reason` exactly when `should_escalate` is
true — a reason is produced even when escalation triggers with an empty
issue list, and no reason is attached to a non-escalating assessment. -/
theorem C10_reason_iff_escalate (S : QCSettings) (text : List Char) (cs : ℤ) :
    (check S text cs).escalation_reason.isSome = (check S text cs).should_escalate := by
  unfold check
  split
  · rfl
  · exact reason_isSome_shape _ _ _ _

def c3space : List Char := " ".toList

/-- C3 counterexample: the response `" "` is non-empty, but `check` takes the
empty-response shortcut, so its score 0 differs from the claimed formula
`max(0, 100 − Σ severity·25)`, which gives 75 for the single severity-1
issue the shortcut reports. -/
theorem C3_counterexample :
    c3space ≠ [] ∧
      (check defaultQS c3space 50).quality_score ≠
        max 0 (pyInt (100 - (((check defaultQS c3space 50).issues.map
          fun i => i.severity * 25).sum))) := by
  constructor
  · decide
  · with_unfolding_all decide

/-- C3 (amended): for every response text whose whitespace-stripped form is
non-empty (so the empty-response shortcut is not taken) and every
complexity, `check` returns score `max(0, 100 − Σ severity·25)` truncated
to int over its own issue list, `should_escalate` iff the score is below
the threshold, and score exactly 100 when the issue list is empty. -/
theorem C3_score_formula (S : QCSettings) (r : List Char) (c : ℤ)
    (h : pyStrip r ≠ []) :
    (check S r c).quality_score =
        max 0 (pyInt (100 - (((check S r c).issues.map fun i => i.severity * 25).sum))) ∧
      ((check S r c).should_escalate = true ↔
        (check S r c).quality_score < S.quality_threshold) ∧
      ((check S r c).issues = [] → (check S r c).quality_score = 100) := by
  have hcond : (r.isEmpty || (pyStrip r).isEmpty) = false := by
    have hr : r ≠ [] := by
      intro hr
      exact h (by simp [hr, pyStrip, dropTrailing])
    simp [List.isEmpty_iff, hr, h]
  unfold check
  rw [hcond]
  simp only [Bool.false_eq_true, if_false]
  refine ⟨calculate_score_formula _, ?_, ?_⟩
  · exact decide_eq_true_iff
  · intro hissues
    rw [hissues]
    rfl

def c3good : List Char := "Hello there friend".toList

theorem C3_score_formula_witness :
    pyStrip c3good ≠ [] ∧
      ((check defaultQS c3good 50).quality_score =
        max 0 (pyInt (100 - (((check defaultQS c3good 50).issues.map
          fun i => i.severity * 25).sum))) ∧
      ((check defaultQS c3good 50).should_escalate = true ↔
        (check defaultQS c3good 50).quality_score < defaultQS.quality_threshold) ∧
      ((check defaultQS c3good 50).issues = [] →
        (check defaultQS c3good 50).quality_score = 100)) :=
  ⟨by decide, C3_score_formula defaultQS c3good 50 (by decide)⟩

def c4model : String := "gemini-2.0-flash-thinking-exp"

def c4resp : ChatResponse :=
  { content := "ok".toList, model := c4model,
    usage := { prompt_tokens := 1000000, completion_tokens := 1000000,
               total_tokens := 2000000 },
    finish_reason := some "stop", latency_ms := 100 }

/-- C4 counterexample: the default complex model name contains both "flash"
and "thinking", so by the claim its cost should use the pro rates
(1.25/5.00 per million tokens); the code checks for "pro", not "thinking",
and prices it at the flash rates instead. -/
theorem C4_counterexample :
    containsSub "flash".toList (lowerText c4model.toList) = true ∧
      containsSub "thinking".toList (lowerText c4model.toList) = true ∧
      calculate_cost c4resp c4model ≠
        (1000000 : ℚ) * 1.25 / 1000000 + (1000000 : ℚ) * 5.00 / 1000000 := by
  refine ⟨by decide, by decide, ?_⟩
  with_unfolding_all decide

/-- C4 (amended): the cost uses the flash rates (0.075 input, 0.30 output
per million tokens) exactly when the lowercased model name contains
"flash" and does not contain "pro" (not "thinking"), and the pro rates
(1.25, 5.00) otherwise; cost = promptTokens·input/1e6 +
completionTokens·output/1e6. -/
theorem C4_cost_formula (model : String) (response : ChatResponse) :
    (containsSub "flash".toList (lowerText model.toList) = true →
      containsSub "pro".toList (lowerText model.toList) = false →
      calculate_cost response model =
        (response.usage.prompt_tokens : ℚ) * 0.075 / 1000000 +
          (response.usage.completion_tokens : ℚ) * 0.30 / 1000000) ∧
    (containsSub "flash".toList (lowerText model.toList) = false ∨
        containsSub "pro".toList (lowerText model.toList) = true →
      calculate_cost response model =
        (response.usage.prompt_tokens : ℚ) * 1.25 / 1000000 +
          (response.usage.completion_tokens : ℚ) * 5.00 / 1000000) := by
  unfold calculate_cost
  constructor
  · intro hf hp
    rw [hf, hp]
    simp only [Bool.not_false, Bool.and_true, if_true]
    ring
  · intro hor
    rcases hor with hf | hp
    · rw [hf]
      simp only [Bool.false_and, Bool.false_eq_true, if_false]
      ring
    · rw [hp]
      simp only [Bool.not_true, Bool.and_false, Bool.false_eq_true, if_false]
      ring

theorem C4_cost_formula_witness :
    containsSub "flash".toList (lowerText ("gemini-2.0-flash" : String).toList) = true ∧
      containsSub "pro".toList (lowerText ("gemini-2.0-flash" : String).toList) = false ∧
      calculate_cost c4resp "gemini-2.0-flash" =
        ((1000000 : ℕ) : ℚ) * 0.075 / 1000000 + ((1000000 : ℕ) : ℚ) * 0.30 / 1000000 :=
  ⟨by decide, by decide,
    (C4_cost_formula "gemini-2.0-flash" c4resp).1 (by decide) (by decide)⟩

def c5text : List Char :=
  "I'm not sure, but maybe it's 42. Possibly. Hard to say.".toList

/-- C5 counterexample: on the literal scenario response with complexity 50
and the default threshold 60, `check` computes quality score 69 (one
uncertainty issue of severity 0.6 and one too-short issue of severity
19/30), and 69 is not below 60, so `shouldEscalate` is false — not true as
the claim states. -/
theorem C5_counterexample :
    (check defaultQS c5text 50).should_escalate = false := by
  with_unfolding_all decide

/-- C5 (amended): the scenario response yields at least one uncertainty
issue, but its quality score is 69, which is not below the default
threshold 60, so `shouldEscalate` is false. -/
theorem C5_scenario :
    ((check defaultQS c5text 50).issues.any
        fun i => i.issue_type == QualityIssueType.uncertainty) = true ∧
      (check defaultQS c5text 50).quality_score = 69 ∧
      ¬((check defaultQS c5text 50).should_escalate = true) := by
  refine ⟨?_, ?_, ?_⟩ <;> with_unfolding_all decide

/-- C6: the Threshold strategy sends `score ≥ high` to the complex model
with no quality check, `score < low` (when not already ≥ high) to the fast
model with no check, and everything else to the fast model with a quality
check; in particular a score equal to `high` goes complex, and a score
equal to `low` (with `low < high`) goes fast-with-check. -/
theorem C6_threshold_routing (low high : ℤ) (a : ComplexityAnalysis)
    (fm cm : String) :
    (high ≤ a.complexity_score →
      (ThresholdRoutingStrategy.decide low high a fm cm).selected_model = cm ∧
      (ThresholdRoutingStrategy.decide low high a fm cm).tier = ModelTier.complex ∧
      (ThresholdRoutingStrategy.decide low high a fm cm).requires_quality_check = false) ∧
    (a.complexity_score < high → a.complexity_score < low →
      (ThresholdRoutingStrategy.decide low high a fm cm).selected_model = fm ∧
      (ThresholdRoutingStrategy.decide low high a fm cm).tier = ModelTier.fast ∧
      (ThresholdRoutingStrategy.decide low high a fm cm).requires_quality_check = false) ∧
    (a.complexity_score < high → low ≤ a.complexity_score →
      (ThresholdRoutingStrategy.decide low high a fm cm).selected_model = fm ∧
      (ThresholdRoutingStrategy.decide low high a fm cm).tier = ModelTier.fast ∧
      (ThresholdRoutingStrategy.decide low high a fm cm).requires_quality_check = true) := by
  unfold ThresholdRoutingStrategy.decide
  refine ⟨fun h1 => ?_, fun h1 h2 => ?_, fun h1 h2 => ?_⟩
  · rw [if_pos h1]
    exact ⟨rfl, rfl, rfl⟩
  · rw [if_neg (by omega), if_pos h2]
    exact ⟨rfl, rfl, rfl⟩
  · rw [if_neg (by omega), if_neg (by omega)]
    exact ⟨rfl, rfl, rfl⟩

def c6analysis : ComplexityAnalysis :=
  { complexity_score := 30, confidence := 0.5, level := .medium,
    detected_signals := [], prompt_length := 12, reasoning := "" }

theorem C6_threshold_routing_witness :
    (ThresholdRoutingStrategy.decide 30 70 c6analysis "fast-m" "complex-m").selected_model
        = "fast-m" ∧
      (ThresholdRoutingStrategy.decide 30 70 c6analysis "fast-m" "complex-m").tier
        = ModelTier.fast ∧
      (ThresholdRoutingStrategy.decide 30 70 c6analysis "fast-m" "complex-m").requires_quality_check
        = true :=
  (C6_threshold_routing 30 70 c6analysis "fast-m" "complex-m").2.2 (by decide) (by decide)

/-- C8: analyzing an empty or whitespace-only prompt short-circuits to
score 0, confidence 1, level low, no signals, and the fixed reasoning
string, without any detector output entering the result. -/
theorem C8_empty_prompt (W : AnalyzerWeights) (p : List Char)
    (h : ∀ c ∈ p, pyIsSpace c = true) :
    (analyze W p).complexity_score = 0 ∧ (analyze W p).confidence = 1 ∧
      (analyze W p).level = ComplexityLevel.low ∧
      (analyze W p).detected_signals = [] ∧
      (analyze W p).reasoning = "Empty prompt" := by
  have hdrop : p.dropWhile pyIsSpace = [] := List.dropWhile_eq_nil_iff.mpr h
  have hstrip : pyStrip p = [] := by
    unfold pyStrip
    rw [hdrop]
    rfl
  have hcond : (p.isEmpty || (pyStrip p).isEmpty) = true := by
    rw [hstrip]
    simp
  unfold analyze
  rw [hcond]
  norm_num

theorem C8_empty_prompt_witness :
    (∀ c ∈ "  ".toList, pyIsSpace c = true) ∧
      ((analyze SIGNAL_WEIGHTS "  ".toList).complexity_score = 0 ∧
        (analyze SIGNAL_WEIGHTS "  ".toList).confidence = 1 ∧
        (analyze SIGNAL_WEIGHTS "  ".toList).level = ComplexityLevel.low ∧
        (analyze SIGNAL_WEIGHTS "  ".toList).detected_signals = [] ∧
        (analyze SIGNAL_WEIGHTS "  ".toList).reasoning = "Empty prompt") :=
  ⟨by decide, C8_empty_prompt SIGNAL_WEIGHTS "  ".toList (by decide)⟩

/-- The invariant of the escalation loop, relative to its accumulator
arguments: when it reports a final response, it appended a non-empty block
of new steps, at most one per remaining iteration; the latency accumulator
grew by exactly the new steps' latencies; the last new step carries the
final model and `escalated = false`; every earlier new step has
`escalated = true`. -/
theorem escalationGo_spec (S : EscSettings) (qcS : QCSettings)
    (gen : Nat → String → Option ChatResponse) (cs : ℤ) :
    ∀ (remaining attempt : Nat) (cm : String) (steps : List EscalationStep) (lat : ℚ)
      (r : ChatResponse),
      (escalationGo S qcS gen cs remaining attempt cm steps lat).final_response = some r →
      ∃ pre last,
        (escalationGo S qcS gen cs remaining attempt cm steps lat).steps
            = steps ++ (pre ++ [last]) ∧
        pre.length + 1 ≤ remaining ∧
        (escalationGo S qcS gen cs remaining attempt cm steps lat).total_latency_ms
            = lat + (((pre ++ [last]).map fun s => s.latency_ms).sum) ∧
        last.model_used
            = (escalationGo S qcS gen cs remaining attempt cm steps lat).current_model ∧
        last.escalated = false ∧
        ∀ s ∈ pre, s.escalated = true := by
  intro remaining
  induction remaining with
  | zero =>
    intro attempt cm steps lat r hr
    exact absurd hr (by simp [escalationGo])
  | succ rem ih =>
    intro attempt cm steps lat r hr
    rw [escalationGo] at hr ⊢
    revert hr
    cases hgen : gen attempt cm with
    | none =>
      intro hr
      exact absurd hr (by simp)
    | some response =>
      intro hr
      dsimp only at hr ⊢
      by_cases hq : (check qcS response.content cs).should_escalate = true
      · rw [hq] at hr ⊢
        simp only [Bool.not_true, Bool.false_eq_true, if_false] at hr ⊢
        by_cases hd : S.max_escalation_depth ≤ attempt
        · rw [if_pos hd] at hr ⊢
          refine ⟨[], mkStep qcS S cs attempt cm response, by simp,
            by simp only [List.length_nil]; omega, by simp [mkStep], rfl, ?_, by simp⟩
          have hlt : decide (attempt < S.max_escalation_depth) = false := by
            simp [Nat.not_lt_of_le hd]
          simp [mkStep, hlt]
        · rw [if_neg hd] at hr ⊢
          by_cases hc : (cm == S.complex_model) = true
          · rw [if_pos hc] at hr ⊢
            refine ⟨[], mkStep qcS S cs attempt cm response, by simp,
              by simp only [List.length_nil]; omega, by simp [mkStep], rfl, ?_, by simp⟩
            simp [mkStep, hc]
          · rw [if_neg hc] at hr ⊢
            obtain ⟨pre, last, hsteps, hlen, hlat, hmodel, hesc, hpre⟩ := ih _ _ _ _ r hr
            refine ⟨mkStep qcS S cs attempt cm response :: pre, last, ?_, ?_, ?_, hmodel,
              hesc, ?_⟩
            · rw [hsteps]
              simp
            · simp only [List.length_cons]
              omega
            · rw [hlat]
              simp only [List.cons_append, List.map_cons, List.sum_cons, mkStep]
              ring
            · intro s hs
              rcases List.mem_cons.mp hs with hs | hs
              · subst hs
                have hlt : decide (attempt < S.max_escalation_depth) = true := by
                  simp [Nat.lt_of_not_le hd]
                simp [mkStep, hq, hlt, hc]
              · exact hpre s hs
      · have hq' : (check qcS response.content cs).should_escalate = false := by
          simpa using hq
        rw [hq'] at hr ⊢
        simp only [Bool.not_false, if_true] at hr ⊢
        refine ⟨[], mkStep qcS S cs attempt cm response, by simp,
          by simp only [List.length_nil]; omega, by simp [mkStep], rfl, ?_, by simp⟩
        simp [mkStep, hq']

/-- C1: a normally returned chain has at least one step, at most
`maxDepth + 1` steps, and `total_attempts` equal to the number of steps. -/
theorem C1_chain_step_bounds (S : EscSettings) (qcS : QCSettings)
    (gen : Nat → String → Option ChatResponse) (rid : String) (msgs : List Message)
    (im : String) (cs : ℤ) (resp : ChatResponse) (chain : EscalationChain)
    (h : handle_with_escalation S qcS gen rid msgs im cs = some (resp, chain)) :
    1 ≤ chain.steps.length ∧ chain.steps.length ≤ S.max_escalation_depth + 1 ∧
      chain.total_attempts = chain.steps.length := by
  unfold handle_with_escalation at h
  simp only at h
  cases hfin : (escalationGo S qcS gen cs (S.max_escalation_depth + 1) 0 im [] 0).final_response with
  | none =>
    rw [hfin] at h
    exact absurd h (by simp)
  | some fr =>
    rw [hfin] at h
    simp only [Option.some.injEq, Prod.mk.injEq] at h
    obtain ⟨-, hchain⟩ := h
    subst hchain
    obtain ⟨pre, last, hsteps, hlen, -, -, -, -⟩ :=
      escalationGo_spec S qcS gen cs (S.max_escalation_depth + 1) 0 im [] 0 fr hfin
    simp only [List.nil_append] at hsteps
    dsimp only
    refine ⟨?_, ?_, rfl⟩
    · rw [hsteps]
      simp
    · rw [hsteps]
      simpa using hlen

/-- C2: a normally returned chain's `final_model` is the `model_used` of its
last step, and `total_latency_ms` is the sum of the steps' latencies. -/
theorem C2_chain_consistency (S : EscSettings) (qcS : QCSettings)
    (gen : Nat → String → Option ChatResponse) (rid : String) (msgs : List Message)
    (im : String) (cs : ℤ) (resp : ChatResponse) (chain : EscalationChain)
    (h : handle_with_escalation S qcS gen rid msgs im cs = some (resp, chain)) :
    (chain.steps.getLast?.map fun s => s.model_used) = some chain.final_model ∧
      chain.total_latency_ms = ((chain.steps.map fun s => s.latency_ms).sum) := by
  unfold handle_with_escalation at h
  simp only at h
  cases hfin : (escalationGo S qcS gen cs (S.max_escalation_depth + 1) 0 im [] 0).final_response with
  | none =>
    rw [hfin] at h
    exact absurd h (by simp)
  | some fr =>
    rw [hfin] at h
    simp only [Option.some.injEq, Prod.mk.injEq] at h
    obtain ⟨-, hchain⟩ := h
    subst hchain
    obtain ⟨pre, last, hsteps, -, hlat, hmodel, -, -⟩ :=
      escalationGo_spec S qcS gen cs (S.max_escalation_depth + 1) 0 im [] 0 fr hfin
    simp only [List.nil_append] at hsteps
    simp only [hsteps, List.getLast?_concat, Option.map_some]
    constructor
    · simp [hmodel]
    · rw [hlat]
      simp

theorem get_append_singleton_last {α : Type} (l : List α) (a : α) (i : Nat)
    (hi : i < (l ++ [a]).length) (hge : l.length ≤ i) : (l ++ [a]).get ⟨i, hi⟩ = a := by
  have hlen : i < l.length + 1 := by simpa using hi
  have hzero : i - l.length = 0 := by omega
  rw [List.get_eq_getElem, List.getElem_append_right hge]
  simp [hzero]

/-- C9: in every normally returned chain, the last step's `escalated` flag
is false, and every step marked `escalated` has a successor step. -/
theorem C9_escalated_has_successor (S : EscSettings) (qcS : QCSettings)
    (gen : Nat → String → Option ChatResponse) (rid : String) (msgs : List Message)
    (im : String) (cs : ℤ) (resp : ChatResponse) (chain : EscalationChain)
    (h : handle_with_escalation S qcS gen rid msgs im cs = some (resp, chain)) :
    ((chain.steps.getLast?.map fun s => s.escalated) = some false) ∧
      ∀ (i : Nat) (hi : i < chain.steps.length),
        (chain.steps.get ⟨i, hi⟩).escalated = true → i + 1 < chain.steps.length := by
  unfold handle_with_escalation at h
  simp only at h
  cases hfin : (escalationGo S qcS gen cs (S.max_escalation_depth + 1) 0 im [] 0).final_response with
  | none =>
    rw [hfin] at h
    exact absurd h (by simp)
  | some fr =>
    rw [hfin] at h
    simp only [Option.some.injEq, Prod.mk.injEq] at h
    obtain ⟨-, hchain⟩ := h
    subst hchain
    obtain ⟨pre, last, hsteps, -, -, -, hesc, hpre⟩ :=
      escalationGo_spec S qcS gen cs (S.max_escalation_depth + 1) 0 im [] 0 fr hfin
    simp only [List.nil_append] at hsteps
    constructor
    · simp [hsteps, List.getLast?_concat, hesc]
    · intro i
      rw [hsteps]
      intro hi htrue
      rcases Nat.lt_or_ge i pre.length with hlt | hge
      · simp only [List.length_append, List.length_cons, List.length_nil]
        omega
      · have hieq : i = pre.length := by
          have hlen : i < pre.length + 1 := by simpa using hi
          omega
        subst hieq
        rw [get_append_singleton_last pre last pre.length hi hge] at htrue
        simp [hesc] at htrue

/-! Witness run for the escalation claims: a back-end that always answers
with a clean, long-enough response, so the loop breaks after one step. -/

def wText : List Char :=
  "Water boils at one hundred degrees under standard pressure near sea level on Earth.".toList

def wResp : ChatResponse :=
  { content := wText, model := "gemini-2.0-flash",
    usage := { prompt_tokens := 12, completion_tokens := 30, total_tokens := 42 },
    finish_reason := some "stop", latency_ms := 120 }

def wGen : Nat → String → Option ChatResponse := fun _ _ => some wResp

def wSettings : EscSettings :=
  { complex_model := "gemini-2.0-flash-thinking-exp", max_escalation_depth := 2 }

def wMsgs : List Message := [{ role := "user", content := "What is Python?".toList }]

def wRun : Option (ChatResponse × EscalationChain) :=
  handle_with_escalation wSettings defaultQS wGen "req-w" wMsgs "gemini-2.0-flash" 0

def wChain : EscalationChain :=
  match wRun with
  | some (_, chain) => chain
  | none =>
    { request_id := "", original_prompt_preview := [], steps := [], final_model := "",
      final_response := [], total_attempts := 0, total_latency_ms := 0,
      escalation_prevented_loop := false }

def wFinal : ChatResponse :=
  match wRun with
  | some (r, _) => r
  | none => wResp

theorem wRun_eq :
    handle_with_escalation wSettings defaultQS wGen "req-w" wMsgs "gemini-2.0-flash" 0
      = some (wFinal, wChain) := by
  with_unfolding_all decide

theorem C1_chain_step_bounds_witness :
    handle_with_escalation wSettings defaultQS wGen "req-w" wMsgs "gemini-2.0-flash" 0
        = some (wFinal, wChain) ∧
      (1 ≤ wChain.steps.length ∧ wChain.steps.length ≤ wSettings.max_escalation_depth + 1 ∧
        wChain.total_attempts = wChain.steps.length) :=
  ⟨wRun_eq,
    C1_chain_step_bounds wSettings defaultQS wGen "req-w" wMsgs "gemini-2.0-flash" 0
      wFinal wChain wRun_eq⟩

theorem C2_chain_consistency_witness :
    handle_with_escalation wSettings defaultQS wGen "req-w" wMsgs "gemini-2.0-flash" 0
        = some (wFinal, wChain) ∧
      ((wChain.steps.getLast?.map fun s => s.model_used) = some wChain.final_model ∧
        wChain.total_latency_ms = ((wChain.steps.map fun s => s.latency_ms).sum)) :=
  ⟨wRun_eq,
    C2_chain_consistency wSettings defaultQS wGen "req-w" wMsgs "gemini-2.0-flash" 0
      wFinal wChain wRun_eq⟩

theorem C9_escalated_has_successor_witness :
    handle_with_escalation wSettings defaultQS wGen "req-w" wMsgs "gemini-2.0-flash" 0
        = some (wFinal, wChain) ∧
      (((wChain.steps.getLast?.map fun s => s.escalated) = some false) ∧
        ∀ (i : Nat) (hi : i < wChain.steps.length),
          (wChain.steps.get ⟨i, hi⟩).escalated = true → i + 1 < wChain.steps.length) :=
  ⟨wRun_eq,
    C9_escalated_has_successor wSettings defaultQS wGen "req-w" wMsgs "gemini-2.0-flash" 0
      wFinal wChain wRun_eq⟩

/-! ## C7: monotonicity -/

/-- Inserting a string at position `i`. -/
def insertAt (s : List Char) (i : Nat) (ins : List Char) : List Char :=
  s.take i ++ ins ++ s.drop i

/-- C7 counterexample: `"compute "` is detector-positive (a reasoning
keyword), yet inserting it into the middle of `"analyze"` destroys the
high-weight keyword match and the complexity score drops from 32 to 22. -/
theorem C7_counterexample :
    detect_reasoning_keywords "compute ".toList ≠ [] ∧
      insertAt "analyze".toList 4 "compute ".toList = "analcompute yze".toList ∧
      (analyze SIGNAL_WEIGHTS (insertAt "analyze".toList 4 "compute ".toList)).complexity_score
        < (analyze SIGNAL_WEIGHTS "analyze".toList).complexity_score := by
  refine ⟨?_, by decide, ?_⟩
  · with_unfolding_all decide
  · with_unfolding_all decide

theorem decayTop_zero (l : List ℚ) (d : ℚ) : decayTop l 0 d = 0 := by
  cases l <;> rfl

theorem decayTop_cons_le (w : ℚ) (hw : 0 ≤ w) :
    ∀ (l : List ℚ), (∀ x ∈ l, x ≤ w) →
      ∀ (n : Nat) (d : ℚ), 0 ≤ d →
        decayTop l n d ≤ w * d + decayTop l (n - 1) (d * 0.7) := by
  intro l
  induction l with
  | nil =>
    intro _ n d hd
    simp only [decayTop]
    have : 0 ≤ w * d := mul_nonneg hw hd
    cases n <;> simp [decayTop] <;> linarith
  | cons x xs ih =>
    intro hall n d hd
    have hx : x ≤ w := hall x (by simp)
    cases n with
    | zero =>
      simp only [decayTop, Nat.zero_sub]
      have : 0 ≤ w * d := mul_nonneg hw hd
      linarith
    | succ m =>
      cases m with
      | zero =>
        simp only [decayTop, Nat.succ_sub_one, decayTop_zero]
        have hxd : x * d ≤ w * d := mul_le_mul_of_nonneg_right hx hd
        linarith
      | succ k =>
        have hih := ih (fun y hy => hall y (by simp [hy])) (k + 1) (d * 0.7) (by positivity)
        simp only [decayTop, Nat.succ_sub_one] at hih ⊢
        have hxd : x * d ≤ w * d := mul_le_mul_of_nonneg_right hx hd
        nlinarith [hih, hxd, hd]

theorem decayTop_orderedInsert_ge (w : ℚ) (hw : 0 ≤ w) :
    ∀ (l : List ℚ), l.Sorted (fun a b => a ≥ b) →
      ∀ (n : Nat) (d : ℚ), 0 ≤ d →
        decayTop l n d ≤ decayTop (l.orderedInsert (fun a b => a ≥ b) w) n d := by
  intro l
  induction l with
  | nil =>
    intro _ n d hd
    cases n with
    | zero => simp [List.orderedInsert, decayTop]
    | succ m =>
      simp only [List.orderedInsert, decayTop]
      have : 0 ≤ w * d := mul_nonneg hw hd
      linarith
  | cons b bs ih =>
    intro hsorted n d hd
    rw [List.orderedInsert]
    by_cases hwb : w ≥ b
    · rw [if_pos hwb]
      cases n with
      | zero => simp [decayTop]
      | succ m =>
        have hall : ∀ x ∈ b :: bs, x ≤ w := by
          intro x hx
          rcases List.mem_cons.mp hx with rfl | hx
          · exact hwb
          · exact le_trans (List.rel_of_sorted_cons hsorted x hx) hwb
        have hle := decayTop_cons_le w hw (b :: bs) hall (m + 1) d hd
        simp only [Nat.succ_sub_one] at hle
        simpa only [decayTop] using hle
    · rw [if_neg hwb]
      cases n with
      | zero => simp [decayTop]
      | succ m =>
        simp only [decayTop]
        have hbs := ih (List.sorted_cons.mp hsorted).2 m (d * 0.7) (by positivity)
        linarith

theorem aggregate_signals_cons_le (s : DetectedSignal) (sig : List DetectedSignal)
    (hw : 0 ≤ s.weight) :
    aggregate_signals sig ≤ aggregate_signals (s :: sig) := by
  unfold aggregate_signals
  by_cases hsig : sig.isEmpty
  · rw [if_pos hsig, if_neg (by simp)]
    have hlist : sig = [] := List.isEmpty_iff.mp hsig
    subst hlist
    simp only [List.map_cons, List.map_nil, List.insertionSort, List.orderedInsert, decayTop]
    have h1 : (0 : ℚ) ≤ 1 := by norm_num
    have h2 : (0 : ℚ) ≤ s.weight * 1 + 0 := by linarith [hw]
    exact le_min h1 h2
  · rw [if_neg hsig, if_neg (by simp)]
    apply min_le_min (le_refl 1)
    have hseq :
        List.insertionSort (fun a b : ℚ => a ≥ b) ((s :: sig).map fun t => t.weight)
          = List.orderedInsert (fun a b : ℚ => a ≥ b) s.weight
              (List.insertionSort (fun a b : ℚ => a ≥ b) (sig.map fun t => t.weight)) := rfl
    rw [hseq]
    exact decayTop_orderedInsert_ge s.weight hw _
      (List.sorted_insertionSort _ _) 5 1 (by norm_num)

theorem pyInt_mono {a b : ℚ} (h : a ≤ b) : pyInt a ≤ pyInt b := by
  unfold pyInt
  by_cases ha : 0 ≤ a
  · rw [if_pos ha, if_pos (le_trans ha h)]
    exact Int.floor_mono h
  · rw [if_neg ha]
    by_cases hb : 0 ≤ b
    · rw [if_pos hb]
      have h1 : (0 : ℤ) ≤ ⌊b⌋ := Int.floor_nonneg.mpr hb
      have h2 : (0 : ℤ) ≤ ⌊-a⌋ := Int.floor_nonneg.mpr (by linarith [lt_of_not_le ha])
      linarith
    · rw [if_neg hb]
      have hfl : ⌊-b⌋ ≤ ⌊-a⌋ := Int.floor_mono (by linarith)
      linarith

/-- C7 (amended): the score computation itself is monotone in the detected
signals — adding a signal of nonnegative weight to any category never
decreases `_calculate_score` (diminishing returns never turn an extra
signal into a penalty). Text-level insertion can destroy or merge existing
matches, so the claim as stated fails (see the counterexample). -/
theorem C7_aggregation_monotone (ks cs ms mp : List DetectedSignal)
    (lw : DetectedSignal) (s : DetectedSignal) (hw : 0 ≤ s.weight) :
    calculate_complexity_score SIGNAL_WEIGHTS ks cs ms mp lw ≤
        calculate_complexity_score SIGNAL_WEIGHTS (s :: ks) cs ms mp lw ∧
      calculate_complexity_score SIGNAL_WEIGHTS ks cs ms mp lw ≤
        calculate_complexity_score SIGNAL_WEIGHTS ks (s :: cs) ms mp lw ∧
      calculate_complexity_score SIGNAL_WEIGHTS ks cs ms mp lw ≤
        calculate_complexity_score SIGNAL_WEIGHTS ks cs (s :: ms) mp lw ∧
      calculate_complexity_score SIGNAL_WEIGHTS ks cs ms mp lw ≤
        calculate_complexity_score SIGNAL_WEIGHTS ks cs ms (s :: mp) lw := by
  have hagg : ∀ sig : List DetectedSignal,
      aggregate_signals sig ≤ aggregate_signals (s :: sig) :=
    fun sig => aggregate_signals_cons_le s sig hw
  refine ⟨?_, ?_, ?_, ?_⟩ <;>
    · unfold calculate_complexity_score
      apply pyInt_mono
      apply min_le_min (le_refl (100 : ℚ))
      have h1 := mul_le_mul_of_nonneg_right (hagg ks)
        (show (0 : ℚ) ≤ SIGNAL_WEIGHTS.keyword by norm_num [SIGNAL_WEIGHTS])
      have h2 := mul_le_mul_of_nonneg_right (hagg cs)
        (show (0 : ℚ) ≤ SIGNAL_WEIGHTS.code by norm_num [SIGNAL_WEIGHTS])
      have h3 := mul_le_mul_of_nonneg_right (hagg ms)
        (show (0 : ℚ) ≤ SIGNAL_WEIGHTS.math by norm_num [SIGNAL_WEIGHTS])
      have h4 := mul_le_mul_of_nonneg_right (hagg mp)
        (show (0 : ℚ) ≤ SIGNAL_WEIGHTS.multipart by norm_num [SIGNAL_WEIGHTS])
      nlinarith [h1, h2, h3, h4]

def c7sig : DetectedSignal :=
  { signal_type := .reasoning_keyword, value := "analyze".toList, weight := 0.9,
    position := some 0 }

def c7len : DetectedSignal := calculate_length_signal "hi".toList

theorem C7_aggregation_monotone_witness :
    (0 : ℚ) ≤ c7sig.weight ∧
      (calculate_complexity_score SIGNAL_WEIGHTS [] [] [] [] c7len ≤
          calculate_complexity_score SIGNAL_WEIGHTS [c7sig] [] [] [] c7len ∧
        calculate_complexity_score SIGNAL_WEIGHTS [] [] [] [] c7len ≤
          calculate_complexity_score SIGNAL_WEIGHTS [] [c7sig] [] [] c7len ∧
        calculate_complexity_score SIGNAL_WEIGHTS [] [] [] [] c7len ≤
          calculate_complexity_score SIGNAL_WEIGHTS [] [] [c7sig] [] c7len ∧
        calculate_complexity_score SIGNAL_WEIGHTS [] [] [] [] c7len ≤
          calculate_complexity_score SIGNAL_WEIGHTS [] [] [] [c7sig] c7len) :=
  ⟨by norm_num [c7sig], C7_aggregation_monotone [] [] [] [] c7len c7sig
    (by norm_num [c7sig])⟩

end RouterSpec
